import Mathlib

/-!
Shallow embedding of the session/auth lifecycle and API-request contract of
the appointment-booking client (src/src/App.js): the storage keys read and
written by the AuthProvider startup effect, login and logout, the apiRequest
gateway with its 401/403 escape hatch and error normalization, the
registration submit handler, and the transient message list.

JavaScript values that flow through the modelled code (parsed JSON bodies,
the decoded token payload, the stored user profile) are embedded as `JsVal`.
The platform primitives the code calls (`JSON.parse` via `response.json()`,
`atob`, `String.prototype.split`, property access, ToNumber coercion) are
embedded as executable Lean functions on `JsVal` and character lists; the
JSON and number grammars are restricted to the integer fragment (a body the
embedded parser accepts is parsed exactly as the platform parses it, and
every input the embedded parser rejects is either rejected by the platform
too or lies outside the integer fragment, which no claim touches).
-/

set_option maxHeartbeats 2000000

/-- Embedded JavaScript value: the result of parsing JSON, plus the
distinguished `undefined` value produced by missing properties and by the
bare `return;` in `apiRequest`. Numbers are restricted to integers. -/
inductive JsVal where
  | undefinedVal : JsVal
  | jnull : JsVal
  | jbool : Bool → JsVal
  | jnum : Int → JsVal
  | jstr : String → JsVal
  | jarr : List JsVal → JsVal
  | jobj : List (String × JsVal) → JsVal

/-- Builds a string from a character list. -/
def chStr (cs : List Char) : String := String.mk cs

/-- JavaScript truthiness: `undefined`, `null`, `false`, `0` and the empty
string are falsy; every other value is truthy. -/
def truthy : JsVal → Bool
  | .undefinedVal => false
  | .jnull => false
  | .jbool b => b
  | .jnum n => n ≠ 0
  | .jstr s => s ≠ ""
  | .jarr _ => true
  | .jobj _ => true

mutual

/-- JavaScript ToString on embedded values (`String(v)`), as used by
`new Error(v)` and by array-to-primitive coercion. -/
def jsValToStr : JsVal → String
  | .undefinedVal => "undefined"
  | .jnull => "null"
  | .jbool true => "true"
  | .jbool false => "false"
  | .jnum n => toString n
  | .jstr s => s
  | .jarr xs => jsArrToStr xs
  | .jobj _ => "[object Object]"
termination_by structural v => v

/-- Array.prototype.toString: elements joined by commas, with `undefined`
and `null` elements rendered empty, as Array.prototype.join does. -/
def jsArrToStr : List JsVal → String
  | [] => ""
  | [.undefinedVal] => ""
  | [.jnull] => ""
  | [x] => jsValToStr x
  | .undefinedVal :: xs => "," ++ jsArrToStr xs
  | .jnull :: xs => "," ++ jsArrToStr xs
  | x :: xs => jsValToStr x ++ "," ++ jsArrToStr xs
termination_by structural xs => xs

end

/-- Whitespace stripped by the platform around numeric strings and inside
forgiving base64. -/
def isWsChar (c : Char) : Bool :=
  c = '\x09' ∨ c = '\x0a' ∨ c = '\x0b' ∨ c = '\x0c' ∨ c = '\x0d' ∨ c = ' '

/-- Longest leading run of decimal digits, and the remainder. -/
def takeDigits : List Char → List Char × List Char
  | [] => ([], [])
  | c :: rest =>
    if '0' ≤ c ∧ c ≤ '9' then
      match takeDigits rest with
      | (ds, r) => (c :: ds, r)
    else ([], c :: rest)

/-- Numeric value of a digit run. -/
def digitsVal (ds : List Char) : Nat :=
  ds.foldl (fun acc c => acc * 10 + (c.toNat - '0'.toNat)) 0

/-- Trims platform whitespace from both ends of a character list. -/
def trimEnds (cs : List Char) : List Char :=
  ((cs.dropWhile isWsChar).reverse.dropWhile isWsChar).reverse

/-- JavaScript ToNumber on a string, restricted to the integer fragment:
the empty (or all-whitespace) string is 0, an optionally signed digit run is
its value, and anything else is `none`, standing for NaN or a non-integer. -/
def strToNum (s : String) : Option Int :=
  match trimEnds s.data with
  | [] => some 0
  | '-' :: rest =>
    (match takeDigits rest with
     | (ds, []) => if ds = [] then none else some (-(digitsVal ds : Int))
     | _ => none)
  | '+' :: rest =>
    (match takeDigits rest with
     | (ds, []) => if ds = [] then none else some ((digitsVal ds : Int))
     | _ => none)
  | cs =>
    (match takeDigits cs with
     | (ds, []) => if ds = [] then none else some ((digitsVal ds : Int))
     | _ => none)

/-- JavaScript ToNumber on embedded values, restricted to the integer
fragment; `none` stands for NaN (and for non-integers, which the modelled
code never compares). Arrays coerce through their joined string form. -/
def jsToNum : JsVal → Option Int
  | .undefinedVal => none
  | .jnull => some 0
  | .jbool b => some (if b then 1 else 0)
  | .jnum n => some n
  | .jstr s => strToNum s
  | .jarr xs => strToNum (jsArrToStr xs)
  | .jobj _ => none

/-- Embedded JavaScript Error value: its `name` and `message` properties. -/
structure JsError where
  name : String
  message : String
  deriving DecidableEq

/-- Last binding of a key in an object's field list (later duplicate keys
win, as in `JSON.parse`); `undefined` when absent. -/
def lookupField (fs : List (String × JsVal)) (key : String) : JsVal :=
  match fs with
  | [] => .undefinedVal
  | (k, v) :: rest =>
    match lookupField rest key with
    | .undefinedVal => if k = key then v else .undefinedVal
    | w => w

/-- JavaScript property access `v[key]`: throws a TypeError on `undefined`
and `null`, looks up object fields, and yields `undefined` on every other
value (no prototype properties are modelled; the modelled code only reads
the keys exp, error and message, which no prototype supplies). -/
def getProp (v : JsVal) (key : String) : Except JsError JsVal :=
  match v with
  | .undefinedVal => .error ⟨"TypeError", "Cannot read properties of undefined"⟩
  | .jnull => .error ⟨"TypeError", "Cannot read properties of null"⟩
  | .jobj fs => .ok (lookupField fs key)
  | _ => .ok .undefinedVal

/-- Optional chaining `v?.[key]`: `undefined` when `v` is `undefined` or
`null`, otherwise plain property access (which can no longer throw). -/
def optChain (v : JsVal) (key : String) : JsVal :=
  match v with
  | .undefinedVal => .undefinedVal
  | .jnull => .undefinedVal
  | .jobj fs => lookupField fs key
  | _ => .undefinedVal

/-- Decides whether one character list begins with another. -/
def beginsWith : List Char → List Char → Bool
  | _, [] => true
  | [], _ :: _ => false
  | c :: cs, d :: ds => c = d && beginsWith cs ds

/-- Decides whether a character list occurs inside another. -/
def hasSub : List Char → List Char → Bool
  | [], sub => sub.isEmpty
  | c :: t, sub => beginsWith (c :: t) sub || hasSub t sub

/-- String.prototype.includes. -/
def strIncludes (hay sub : String) : Bool := hasSub hay.data sub.data

/-- String.prototype.split on a single-character separator, as in
`token.split(".")`. -/
def splitOnChar (sep : Char) (cs : List Char) : List (List Char) :=
  match cs with
  | [] => [[]]
  | c :: rest =>
    let r := splitOnChar sep rest
    if c = sep then [] :: r
    else
      match r with
      | [] => [[c]]
      | g :: gs => (c :: g) :: gs

/-- JSON whitespace. -/
def isJsonWs (c : Char) : Bool :=
  c = ' ' ∨ c = '\x09' ∨ c = '\x0a' ∨ c = '\x0d'

/-- Drops leading JSON whitespace. -/
def skipWs (cs : List Char) : List Char := cs.dropWhile isJsonWs

/-- JSON string escape sequences (the \uXXXX form lies outside the embedded
fragment and is rejected). -/
def escChar (c : Char) : Option Char :=
  if c = '"' then some '"'
  else if c = '\\' then some '\\'
  else if c = '/' then some '/'
  else if c = 'n' then some '\x0a'
  else if c = 't' then some '\x09'
  else if c = 'r' then some '\x0d'
  else if c = 'b' then some '\x08'
  else if c = 'f' then some '\x0c'
  else none

/-- Body of a JSON string after the opening quote: the decoded characters
and the remainder after the closing quote. -/
def parseStrBody : List Char → Option (List Char × List Char)
  | [] => none
  | '"' :: rest => some ([], rest)
  | '\\' :: rest =>
    (match rest with
     | [] => none
     | e :: rest2 =>
       match escChar e with
       | none => none
       | some c => (parseStrBody rest2).map (fun p => (c :: p.1, p.2)))
  | c :: rest =>
    if c.toNat < 32 then none
    else (parseStrBody rest).map (fun p => (c :: p.1, p.2))

/-- JSON integer literal: optional minus, digit run without a redundant
leading zero, not followed by a fraction or exponent (non-integer numbers
lie outside the embedded fragment and are rejected). -/
def parseIntLit (cs : List Char) : Option (Int × List Char) :=
  let p := match cs with
    | '-' :: rest => (true, rest)
    | _ => (false, cs)
  match takeDigits p.2 with
  | ([], _) => none
  | (ds, rest) =>
    if 1 < ds.length ∧ ds.headD '0' = '0' then none
    else
      match rest with
      | '.' :: _ => none
      | 'e' :: _ => none
      | 'E' :: _ => none
      | _ => some ((if p.1 then -(digitsVal ds : Int) else (digitsVal ds : Int)), rest)

mutual

/-- One JSON value (fuel-bounded recursive descent), returning the value and
the unconsumed remainder. -/
def parseVal : Nat → List Char → Option (JsVal × List Char)
  | 0, _ => none
  | Nat.succ fuel, cs =>
    match skipWs cs with
    | 'n' :: 'u' :: 'l' :: 'l' :: rest => some (.jnull, rest)
    | 't' :: 'r' :: 'u' :: 'e' :: rest => some (.jbool true, rest)
    | 'f' :: 'a' :: 'l' :: 's' :: 'e' :: rest => some (.jbool false, rest)
    | '"' :: rest => (parseStrBody rest).map (fun p => (.jstr (chStr p.1), p.2))
    | '[' :: rest =>
      (match skipWs rest with
       | ']' :: r2 => some (.jarr [], r2)
       | r2 => (parseItems fuel r2).map (fun p => (.jarr p.1, p.2)))
    | '\x7b' :: rest =>
      (match skipWs rest with
       | '\x7d' :: r2 => some (.jobj [], r2)
       | r2 => (parseFields fuel r2).map (fun p => (.jobj p.1, p.2)))
    | c :: rest =>
      if c = '-' ∨ ('0' ≤ c ∧ c ≤ '9') then
        (parseIntLit (c :: rest)).map (fun p => (.jnum p.1, p.2))
      else none
    | [] => none

/-- Comma-separated JSON array items up to the closing bracket. -/
def parseItems : Nat → List Char → Option (List JsVal × List Char)
  | 0, _ => none
  | Nat.succ fuel, cs =>
    match parseVal fuel cs with
    | none => none
    | some (v, rest) =>
      match skipWs rest with
      | ',' :: r2 => (parseItems fuel r2).map (fun p => (v :: p.1, p.2))
      | ']' :: r2 => some ([v], r2)
      | _ => none

/-- Comma-separated JSON object members up to the closing brace. -/
def parseFields : Nat → List Char → Option (List (String × JsVal) × List Char)
  | 0, _ => none
  | Nat.succ fuel, cs =>
    match skipWs cs with
    | '"' :: rest =>
      (match parseStrBody rest with
       | none => none
       | some (key, r1) =>
         match skipWs r1 with
         | ':' :: r2 =>
           (match parseVal fuel r2 with
            | none => none
            | some (v, r3) =>
              match skipWs r3 with
              | ',' :: r4 => (parseFields fuel r4).map (fun p => ((chStr key, v) :: p.1, p.2))
              | '\x7d' :: r4 => some ([(chStr key, v)], r4)
              | _ => none)
         | _ => none)
    | _ => none

end

/-- JSON.parse (and `response.json()`): `some` is the parsed value, `none`
is the thrown SyntaxError. -/
def jsonParse (s : String) : Option JsVal :=
  let cs := s.data
  match parseVal (2 * cs.length + 2) cs with
  | some (v, rest) => if (skipWs rest).isEmpty then some v else none
  | none => none

/-- Value of one base64 alphabet character. -/
def b64CharVal (c : Char) : Option Nat :=
  if 'A' ≤ c ∧ c ≤ 'Z' then some (c.toNat - 'A'.toNat)
  else if 'a' ≤ c ∧ c ≤ 'z' then some (c.toNat - 'a'.toNat + 26)
  else if '0' ≤ c ∧ c ≤ '9' then some (c.toNat - '0'.toNat + 52)
  else if c = '+' then some 62
  else if c = '/' then some 63
  else none

/-- Removes up to two trailing padding characters. -/
def dropTrailingEq (cs : List Char) : List Char :=
  match cs.reverse with
  | '=' :: '=' :: rest => rest.reverse
  | '=' :: rest => rest.reverse
  | _ => cs

/-- Bytes (as characters below 256) decoded from a run of 6-bit values. -/
def b64Bytes : List Nat → List Char
  | a :: b :: c :: d :: rest =>
    Char.ofNat ((a % 64) * 4 + b / 16) ::
      Char.ofNat ((b % 16) * 16 + (c % 64) / 4) ::
        Char.ofNat ((c % 4) * 64 + d % 64) :: b64Bytes rest
  | [a, b] => [Char.ofNat ((a % 64) * 4 + b / 16)]
  | [a, b, c] =>
    [Char.ofNat ((a % 64) * 4 + b / 16), Char.ofNat ((b % 16) * 16 + (c % 64) / 4)]
  | _ => []

/-- The atob platform primitive (WHATWG forgiving-base64 decode): `some` is
the decoded byte string, `none` is the thrown InvalidCharacterError. -/
def atob (s : String) : Option String :=
  let cs := s.data.filter (fun c => ¬ isWsChar c)
  let cs := if cs.length % 4 = 0 then dropTrailingEq cs else cs
  if cs.length % 4 = 1 then none
  else
    match cs.mapM b64CharVal with
    | none => none
    | some vals => some (chStr (b64Bytes vals))

/-- Persisted client state: the localStorage keys token and user. `none`
means the key is absent (getItem returns null); `some s` means the key holds
the string `s`. -/
structure Storage where
  token : Option String
  user : Option String
  deriving DecidableEq

/-- Base API URL: the environment override when set and nonempty (the
JavaScript `||` takes the default on any falsy override), else the fixed
default. -/
def apiUrl (envOverride : Option String) : String :=
  match envOverride with
  | some u => if u ≠ "" then u else "http://localhost:5000/api"
  | none => "http://localhost:5000/api"

/-- URL a gateway call targets: base URL followed by the endpoint path. -/
def requestUrl (envOverride : Option String) (endpoint : String) : String :=
  apiUrl envOverride ++ endpoint

/-- Headers attached by `apiRequest`: Content-Type always, and an
Authorization bearer header exactly when the stored token is truthy (a
present, nonempty string), via the spread `...(token && \x7b...\x7d)`. -/
def requestHeaders (st : Storage) : List (String × String) :=
  ("Content-Type", "application/json") ::
    (match st.token with
     | some t => if t ≠ "" then [("Authorization", "Bearer " ++ t)] else []
     | none => [])

/-- Environment behaviour of one `fetch` call: either the transport rejects
with an error, or an HTTP response arrives with a status, a status text and
a raw body. -/
inductive FetchResult where
  | netFailure : JsError → FetchResult
  | httpResponse : Nat → String → String → FetchResult

/-- Settled state of the promise `apiRequest` returns: fulfilled with a
value (the parsed body, or `undefined` from the bare `return;`), or
rejected with an error. -/
inductive ApiOutcome where
  | resolved : JsVal → ApiOutcome
  | rejected : JsError → ApiOutcome

/-- Everything one `apiRequest` call leaves behind: the persisted storage
after the call, whether `window.location.reload()` was invoked, and the
settled promise. -/
structure ApiEffect where
  storage : Storage
  reloaded : Bool
  outcome : ApiOutcome

/-- Message of the connectivity error thrown by `apiRequest`. -/
def connectivityMessage : String :=
  "Unable to connect to server. Please check your connection."

/-- Message of the platform SyntaxError thrown by `response.json()` on an
unparseable body (its exact text is platform-defined; its name is always
SyntaxError, never TypeError, so the catch clause always rethrows it). -/
def jsonParseErrorMessage : String := "Unexpected token in JSON"

/-- Catch clause of `apiRequest`: a TypeError whose message contains
"fetch" becomes the connectivity error; every other error is rethrown
unchanged. -/
def handleCatch (e : JsError) : JsError :=
  if e.name = "TypeError" ∧ strIncludes e.message "fetch" then
    ⟨"Error", connectivityMessage⟩
  else e

/-- Fallback error text `HTTP <status>: <statusText>`. -/
def httpFallback (status : Nat) (statusText : String) : String :=
  "HTTP " ++ toString status ++ ": " ++ statusText

/-- One `apiRequest` call, given the persisted storage, the endpoint and
method of the call, and the transport's behaviour. Mirrors the source: the
body is parsed by `response.json()` before the status is examined; on a
non-ok status, 401 and 403 clear both storage keys, invoke a reload and
resolve with `undefined` via the bare `return;`; any other non-ok status
throws an Error built from `data.error?.message ||` the HTTP fallback; an
ok status resolves with the parsed body. The catch clause normalizes only
TypeErrors mentioning fetch into the connectivity error. -/
def apiRequest (st : Storage) (endpoint method : String) (fr : FetchResult) : ApiEffect :=
  match fr with
  | .netFailure e => ⟨st, false, .rejected (handleCatch e)⟩
  | .httpResponse status statusText body =>
    match jsonParse body with
    | none => ⟨st, false, .rejected (handleCatch ⟨"SyntaxError", jsonParseErrorMessage⟩)⟩
    | some data =>
      if ¬ (200 ≤ status ∧ status ≤ 299) then
        if status = 401 ∨ status = 403 then ⟨⟨none, none⟩, true, .resolved .undefinedVal⟩
        else
          match getProp data "error" with
          | .error e => ⟨st, false, .rejected (handleCatch e)⟩
          | .ok ev =>
            ⟨st, false, .rejected (handleCatch ⟨"Error",
              if truthy (optChain ev "message") then jsValToStr (optChain ev "message")
              else httpFallback status statusText⟩)⟩
      else ⟨st, false, .resolved data⟩

/-- Payload segment `token.split(".")[1]` of the stored token; the
out-of-range index yields `undefined`, which `atob` coerces to the string
"undefined". -/
def payloadSegment (token : String) : String :=
  match (splitOnChar '.' token.data).get? 1 with
  | some seg => chStr seg
  | none => "undefined"

/-- Token decoding `JSON.parse(atob(token.split(".")[1]))`: `none` is any
thrown error (invalid base64 or invalid JSON). -/
def decodePayload (token : String) : Option JsVal :=
  (atob (payloadSegment token)).bind jsonParse

/-- Startup effect of the AuthProvider (the initialization step of the
session store), given the persisted storage and the current wall-clock time
in milliseconds. Returns the storage left behind and the session user
(`none` is an absent session). Mirrors the source: both keys must be
present and truthy; the token payload is decoded and its exp claim, in
seconds, is compared as `exp * 1000 > Date.now()`; the stored user JSON is
parsed only on the live path; every thrown error and the expired case clear
both keys and leave the session absent. -/
def initSession (st : Storage) (now : Int) : Storage × Option JsVal :=
  match st.token, st.user with
  | some token, some userData =>
    if token ≠ "" ∧ userData ≠ "" then
      match decodePayload token with
      | none => (⟨none, none⟩, none)
      | some payload =>
        match getProp payload "exp" with
        | .error _ => (⟨none, none⟩, none)
        | .ok expVal =>
          match jsToNum expVal with
          | some e =>
            if e * 1000 > now then
              match jsonParse userData with
              | some u => (st, some u)
              | none => (⟨none, none⟩, none)
            else (⟨none, none⟩, none)
          | none => (⟨none, none⟩, none)
    else (st, none)
  | _, _ => (st, none)

/-- Full auth state: persisted storage plus the in-memory session user. -/
structure AuthState where
  storage : Storage
  session : Option JsVal

/-- The logout operation: removes both storage keys and sets the session
user to null, from any state. -/
def logout (st : AuthState) : AuthState := ⟨⟨none, none⟩, none⟩

/-- Fields of the registration form. -/
structure RegisterFormData where
  name : String
  email : String
  password : String
  confirmPassword : String
  deriving DecidableEq

/-- Password strength score: one point each for length at least 8, a
lowercase letter, an uppercase letter, a digit, and one of the special
characters of the character class in the source. -/
def validatePassword (password : String) : Nat :=
  (if 8 ≤ password.length then 1 else 0) +
    (if password.data.any (fun c => 'a' ≤ c ∧ c ≤ 'z') then 1 else 0) +
    (if password.data.any (fun c => 'A' ≤ c ∧ c ≤ 'Z') then 1 else 0) +
    (if password.data.any (fun c => '0' ≤ c ∧ c ≤ '9') then 1 else 0) +
    (if password.data.any
        (fun c => c = '@' ∨ c = '$' ∨ c = '!' ∨ c = '%' ∨ c = '*' ∨ c = '?' ∨ c = '&')
      then 1 else 0)

/-- What the registration submit handler does before any network traffic:
either a client-local message, or the POST /register call. -/
inductive RegisterAction where
  | localMessage : String → RegisterAction
  | networkRegister : String → String → String → RegisterAction
  deriving DecidableEq

/-- Submit handler of the registration form. Mirrors the source: a
password/confirm mismatch short-circuits with a local message; a strength
score below 5 short-circuits with a local message (the component keeps the
score of the current password in state); otherwise `apiRequest` is invoked
on /register with the name, email and password. -/
def handleRegisterSubmit (f : RegisterFormData) : RegisterAction :=
  if f.password ≠ f.confirmPassword then .localMessage "Passwords do not match"
  else if validatePassword f.password < 5 then
    .localMessage
      "Password must contain at least 8 characters with uppercase, lowercase, number, and special character"
  else .networkRegister f.name f.email f.password

/-- One transient message of the useMessages hook: its identifier (the
Date.now() wall-clock millisecond at creation), text and severity. -/
structure MessageItem where
  id : Int
  message : String
  type : String
  deriving DecidableEq

/-- The addMessage operation: appends a message whose identifier is the
current wall-clock millisecond. -/
def addMessage (msgs : List MessageItem) (now : Int) (message ty : String) : List MessageItem :=
  msgs ++ [⟨now, message, ty⟩]

/-- Removal of a message identifier: both the explicit removeMessage
operation and the 5-second auto-removal scheduled by addMessage run this
same filter, keeping every message whose identifier differs. -/
def removeMessage (msgs : List MessageItem) (id : Int) : List MessageItem :=
  msgs.filter (fun m => m.id != id)

/-- C1 (counterexample): a 401 response whose body is not parseable JSON
does not clear the persisted keys and does not force a reload — the body is
parsed by `response.json()` before the status is examined, so the parse
error propagates first; the call rejects with the SyntaxError instead. -/
theorem c1_counterexample :
    apiRequest ⟨some "tk", some "us"⟩ "/slots" "GET" (.httpResponse 401 "Unauthorized" "x")
        = ⟨⟨some "tk", some "us"⟩, false, .rejected ⟨"SyntaxError", jsonParseErrorMessage⟩⟩ ∧
      (⟨some "tk", some "us"⟩ : Storage) ≠ ⟨none, none⟩ :=
  ⟨rfl, by decide⟩

/-- C1 (amended): for every API call, regardless of endpoint, method and
stored state, if the HTTP response has status 401 or 403 and its body is
parseable JSON, the gateway removes both persisted keys, forces a reload,
and short-circuits — the promise resolves with `undefined`, so the caller
receives neither data nor an error. -/
theorem c1_auth_failure_clears (st : Storage) (endpoint method statusText body : String)
    (status : Nat) (data : JsVal)
    (hparse : jsonParse body = some data)
    (hstatus : status = 401 ∨ status = 403) :
    apiRequest st endpoint method (.httpResponse status statusText body)
      = ⟨⟨none, none⟩, true, .resolved .undefinedVal⟩ := by
  rcases hstatus with h | h <;> subst h <;> simp [apiRequest, hparse]

/-- C1 (witness): the amended theorem at a concrete 401 response. -/
theorem c1_auth_failure_clears_witness :
    apiRequest ⟨some "tk", some "us"⟩ "/slots" "GET" (.httpResponse 401 "Unauthorized" "\x7b\x7d")
      = ⟨⟨none, none⟩, true, .resolved .undefinedVal⟩ :=
  c1_auth_failure_clears ⟨some "tk", some "us"⟩ "/slots" "GET" "Unauthorized" "\x7b\x7d"
    401 (.jobj []) rfl (Or.inl rfl)

/-- C2: for a persisted token-and-user pair present at startup (both keys
truthy), when the token payload decodes with a numeric exp claim and the
stored user data parses, the startup effect yields an active session
holding exactly the parsed user data precisely when `exp * 1000` lies in
the future, and otherwise clears both keys and leaves the session absent. -/
theorem c2_expiry_decides_session (t u : String) (now e : Int) (payload uv : JsVal)
    (ht : t ≠ "") (hu : u ≠ "")
    (hdec : decodePayload t = some payload)
    (hexp : getProp payload "exp" = .ok (.jnum e))
    (huser : jsonParse u = some uv) :
    initSession ⟨some t, some u⟩ now =
      if e * 1000 > now then (⟨some t, some u⟩, some uv) else (⟨none, none⟩, none) := by
  simp only [initSession, ht, hu, hdec, hexp, huser, jsToNum, ne_eq, not_false_eq_true,
    and_self, if_true]

/-- C2 (witness): a live token (exp 2000000000 s, now 1700000000000 ms)
rehydrates the stored profile; an expired token (exp 1 s) clears storage. -/
theorem c2_expiry_decides_session_witness :
    initSession ⟨some "h.eyJleHAiOjIwMDAwMDAwMDB9.s", some "\x7b\"name\":\"Pat\"\x7d"⟩
        1700000000000
      = (⟨some "h.eyJleHAiOjIwMDAwMDAwMDB9.s", some "\x7b\"name\":\"Pat\"\x7d"⟩,
          some (.jobj [("name", .jstr "Pat")])) ∧
    initSession ⟨some "h.eyJleHAiOjF9.s", some "\x7b\"name\":\"Pat\"\x7d"⟩ 1700000000000
      = (⟨none, none⟩, none) := by
  constructor
  · have h := c2_expiry_decides_session "h.eyJleHAiOjIwMDAwMDAwMDB9.s"
      "\x7b\"name\":\"Pat\"\x7d" 1700000000000 2000000000
      (.jobj [("exp", .jnum 2000000000)]) (.jobj [("name", .jstr "Pat")])
      (by decide) (by decide) rfl rfl rfl
    rw [h]; norm_num
  · have h := c2_expiry_decides_session "h.eyJleHAiOjF9.s"
      "\x7b\"name\":\"Pat\"\x7d" 1700000000000 1
      (.jobj [("exp", .jnum 1)]) (.jobj [("name", .jstr "Pat")])
      (by decide) (by decide) rfl rfl rfl
    rw [h]; norm_num

/-- C3 (counterexample): a 500 response with an unparseable body does not
produce the HTTP fallback message — the SyntaxError thrown by
`response.json()` is rethrown instead, and it is a different error (its
name is SyntaxError, not Error, and its platform message is not the
fallback text). -/
theorem c3_counterexample :
    (apiRequest ⟨none, none⟩ "/slots" "GET"
          (.httpResponse 500 "Internal Server Error" "not json")).outcome
        = .rejected ⟨"SyntaxError", jsonParseErrorMessage⟩ ∧
      jsonParseErrorMessage ≠ httpFallback 500 "Internal Server Error" ∧
      (⟨"SyntaxError", jsonParseErrorMessage⟩ : JsError).name ≠ "Error" :=
  ⟨rfl, by decide, by decide⟩

/-- C3 (amended): for every non-2xx response other than 401/403 whose body
parses as JSON to a value on which reading `.error` does not throw and on
which `error?.message` is not truthy, the call rejects with an Error whose
message is exactly `HTTP <status>: <statusText>`; an unparseable body
instead rejects with the JSON parse error. -/
theorem c3_fallback_message (st : Storage) (endpoint method statusText body : String)
    (status : Nat) (data ev : JsVal)
    (hparse : jsonParse body = some data)
    (hok : ¬ (200 ≤ status ∧ status ≤ 299))
    (h401 : status ≠ 401) (h403 : status ≠ 403)
    (herr : getProp data "error" = .ok ev)
    (hfalsy : truthy (optChain ev "message") = false) :
    apiRequest st endpoint method (.httpResponse status statusText body)
      = ⟨st, false, .rejected ⟨"Error", httpFallback status statusText⟩⟩ := by
  simp [apiRequest, hparse, hok, h401, h403, herr, hfalsy, handleCatch]

/-- C3 (witness): the amended theorem at a concrete 500 response with an
empty-object body. -/
theorem c3_fallback_message_witness :
    apiRequest ⟨none, none⟩ "/book" "POST" (.httpResponse 500 "Internal Server Error" "\x7b\x7d")
      = ⟨⟨none, none⟩, false, .rejected ⟨"Error", "HTTP 500: Internal Server Error"⟩⟩ :=
  c3_fallback_message ⟨none, none⟩ "/book" "POST" "Internal Server Error" "\x7b\x7d"
    500 (.jobj []) .undefinedVal rfl (by decide) (by decide) (by decide) rfl rfl

/-- C4: for a persisted pair (both keys truthy) whose token payload fails
to decode — malformed base64, malformed JSON, or no payload segment at all —
the startup effect behaves exactly as in the expired case: it clears both
persisted keys and leaves the session absent (the whole computation is a
total function, so no error escapes). -/
theorem c4_malformed_token_clears (t u : String) (now : Int)
    (ht : t ≠ "") (hu : u ≠ "")
    (hdec : decodePayload t = none) :
    initSession ⟨some t, some u⟩ now = (⟨none, none⟩, none) := by
  simp [initSession, ht, hu, hdec]

/-- C4 (witness): the theorem at a token with no payload segment, one with
an invalid base64 segment, and one whose segment decodes to invalid JSON. -/
theorem c4_malformed_token_clears_witness :
    initSession ⟨some "abc", some "\x7b\x7d"⟩ 0 = (⟨none, none⟩, none) ∧
    initSession ⟨some "a.$$$.b", some "\x7b\x7d"⟩ 0 = (⟨none, none⟩, none) ∧
    initSession ⟨some "a.ew.b", some "\x7b\x7d"⟩ 0 = (⟨none, none⟩, none) :=
  ⟨c4_malformed_token_clears "abc" "\x7b\x7d" 0 (by decide) (by decide) rfl,
    c4_malformed_token_clears "a.$$$.b" "\x7b\x7d" 0 (by decide) (by decide) rfl,
    c4_malformed_token_clears "a.ew.b" "\x7b\x7d" 0 (by decide) (by decide) rfl⟩

/-- C5 (counterexample): for the empty string X, a 500 response with body
error.message equal to X does not reject with message X — the JavaScript
`||` treats the empty string as falsy, so the HTTP fallback message is used
instead. -/
theorem c5_counterexample :
    (apiRequest ⟨none, none⟩ "/book" "POST"
          (.httpResponse 500 "Internal Server Error"
            "\x7b\"error\":\x7b\"message\":\"\"\x7d\x7d")).outcome
        = .rejected ⟨"Error", "HTTP 500: Internal Server Error"⟩ ∧
      "HTTP 500: Internal Server Error" ≠ "" :=
  ⟨rfl, by decide⟩

/-- C5 (amended): for every nonempty string X and every non-2xx response
other than 401/403 whose body parses to the object with error.message
equal to X, the call rejects with an Error whose message is exactly X; for
the empty string the HTTP fallback message is produced instead. -/
theorem c5_error_message_passthrough (st : Storage) (endpoint method statusText body X : String)
    (status : Nat)
    (hparse : jsonParse body = some (.jobj [("error", .jobj [("message", .jstr X)])]))
    (hok : ¬ (200 ≤ status ∧ status ≤ 299))
    (h401 : status ≠ 401) (h403 : status ≠ 403)
    (hX : X ≠ "") :
    apiRequest st endpoint method (.httpResponse status statusText body)
      = ⟨st, false, .rejected ⟨"Error", X⟩⟩ := by
  simp [apiRequest, hparse, hok, h401, h403, getProp, lookupField, optChain, truthy, hX,
    jsValToStr, handleCatch]

/-- C5 (witness): the amended theorem at a concrete 500 response carrying
the message boom. -/
theorem c5_error_message_passthrough_witness :
    apiRequest ⟨none, none⟩ "/book" "POST"
        (.httpResponse 500 "Internal Server Error" "\x7b\"error\":\x7b\"message\":\"boom\"\x7d\x7d")
      = ⟨⟨none, none⟩, false, .rejected ⟨"Error", "boom"⟩⟩ :=
  c5_error_message_passthrough ⟨none, none⟩ "/book" "POST" "Internal Server Error"
    "\x7b\"error\":\x7b\"message\":\"boom\"\x7d\x7d" "boom" 500 rfl (by decide) (by decide)
    (by decide) (by decide)

/-- C6 (counterexample): a transport rejection whose error is a TypeError
with the message Load failed (as one widely deployed engine produces) is
rethrown unchanged — the caller sees that error, not the connectivity
message, because the catch clause matches only messages containing the
word fetch. -/
theorem c6_counterexample :
    apiRequest ⟨none, none⟩ "/slots" "GET" (.netFailure ⟨"TypeError", "Load failed"⟩)
        = ⟨⟨none, none⟩, false, .rejected ⟨"TypeError", "Load failed"⟩⟩ ∧
      "Load failed" ≠ connectivityMessage :=
  ⟨rfl, by decide⟩

/-- C6 (amended): for every transport rejection whose error is a TypeError
whose message contains fetch, the call fails with an Error carrying exactly
the user-facing connectivity message; other rejection errors propagate
unchanged. -/
theorem c6_connectivity_error (st : Storage) (endpoint method : String) (e : JsError)
    (hname : e.name = "TypeError") (hmsg : strIncludes e.message "fetch" = true) :
    apiRequest st endpoint method (.netFailure e)
      = ⟨st, false, .rejected ⟨"Error", connectivityMessage⟩⟩ := by
  simp [apiRequest, handleCatch, hname, hmsg]

/-- C6 (witness): the amended theorem at the rejection error Failed to
fetch. -/
theorem c6_connectivity_error_witness :
    apiRequest ⟨none, none⟩ "/slots" "GET" (.netFailure ⟨"TypeError", "Failed to fetch"⟩)
      = ⟨⟨none, none⟩, false, .rejected ⟨"Error", connectivityMessage⟩⟩ :=
  c6_connectivity_error ⟨none, none⟩ "/slots" "GET" ⟨"TypeError", "Failed to fetch"⟩
    rfl (by decide)

/-- C7: logout is idempotent teardown — from any auth state one call clears
both persisted keys and makes the session absent, a second call leaves the
state unchanged, and running the startup effect on the storage logout
leaves behind always yields an absent session with nothing re-persisted. -/
theorem c7_logout_idempotent_teardown (st : AuthState) (now : Int) :
    (logout st).storage = ⟨none, none⟩ ∧ (logout st).session = none ∧
      logout (logout st) = logout st ∧
      initSession (logout st).storage now = (⟨none, none⟩, none) :=
  ⟨rfl, rfl, rfl, rfl⟩

/-- C8: a registration submission whose password and confirm-password
fields differ produces the local message Passwords do not match and never
reaches the network call. -/
theorem c8_password_mismatch_no_network (f : RegisterFormData)
    (h : f.password ≠ f.confirmPassword) :
    handleRegisterSubmit f = .localMessage "Passwords do not match" ∧
      ∀ n e p, handleRegisterSubmit f ≠ .networkRegister n e p := by
  refine ⟨?_, ?_⟩ <;> simp [handleRegisterSubmit, h]

/-- C8 (witness): the theorem at a concrete mismatched form. -/
theorem c8_password_mismatch_no_network_witness :
    handleRegisterSubmit ⟨"Pat", "pat@example.com", "Passw0rd!", "Passw0rd"⟩
      = .localMessage "Passwords do not match" :=
  (c8_password_mismatch_no_network ⟨"Pat", "pat@example.com", "Passw0rd!", "Passw0rd"⟩
    (by decide)).1

/-- C9 (counterexample): with the persisted token key present but holding
the empty string (and no user key), startup leaves the key in place and the
session absent, yet no Authorization header is attached — the header spread
requires a truthy token, so the claim that the leftover token is always
attached fails at this input. -/
theorem c9_counterexample :
    initSession ⟨some "", none⟩ 0 = (⟨some "", none⟩, none) ∧
      requestHeaders ⟨some "", none⟩ = [("Content-Type", "application/json")] ∧
      ("Authorization", "Bearer " ++ "") ∉ requestHeaders ⟨some "", none⟩ :=
  ⟨rfl, rfl, by decide⟩

/-- C9 (amended): when exactly one persisted key is present at startup, the
startup effect leaves the session absent and the surviving key untouched;
and when the survivor is a nonempty token, every subsequent gateway call
still attaches it as an Authorization bearer header. -/
theorem c9_partial_state_preserved (t u : String) (now : Int) :
    initSession ⟨some t, none⟩ now = (⟨some t, none⟩, none) ∧
      initSession ⟨none, some u⟩ now = (⟨none, some u⟩, none) ∧
      (t ≠ "" → requestHeaders (initSession ⟨some t, none⟩ now).1
        = [("Content-Type", "application/json"), ("Authorization", "Bearer " ++ t)]) := by
  refine ⟨rfl, rfl, fun ht => ?_⟩
  simp [initSession, requestHeaders, ht]

/-- C9 (witness): the amended theorem at a concrete leftover token. -/
theorem c9_partial_state_preserved_witness :
    requestHeaders (initSession ⟨some "tk", none⟩ 0).1
      = [("Content-Type", "application/json"), ("Authorization", "Bearer " ++ "tk")] :=
  (c9_partial_state_preserved "tk" "us" 0).2.2 (by decide)

/-- C10: message identifiers are the creation millisecond, so two messages
added at the same now carry equal identifiers; removing an identifier
(explicitly or by either scheduled auto-removal, which run the same filter)
removes every message bearing it; and removing an identifier no current
message bears leaves the list unchanged. -/
theorem c10_message_ids_and_removal (l : List MessageItem) (now i : Int)
    (t1 t2 ty1 ty2 : String) :
    addMessage (addMessage l now t1 ty1) now t2 ty2
        = l ++ [⟨now, t1, ty1⟩, ⟨now, t2, ty2⟩] ∧
      removeMessage (addMessage (addMessage l now t1 ty1) now t2 ty2) now
        = removeMessage l now ∧
      (∀ m ∈ removeMessage l i, m.id ≠ i) ∧
      ((∀ m ∈ l, m.id ≠ i) → removeMessage l i = l) := by
  refine ⟨by simp [addMessage], ?_, ?_, ?_⟩
  · simp [addMessage, removeMessage, List.filter_append]
  · intro m hm
    have := (List.mem_filter.mp hm).2
    simpa using this
  · intro hall
    exact List.filter_eq_self.mpr fun m hm => by simpa using hall m hm

/-- C10 (witness): the theorem applied with an identifier absent from a
concrete list. -/
theorem c10_message_ids_and_removal_witness :
    removeMessage [⟨5, "saved", "success"⟩] 7 = [⟨5, "saved", "success"⟩] :=
  (c10_message_ids_and_removal [⟨5, "saved", "success"⟩] 0 7 "a" "b" "error" "error").2.2.2
    (by decide)
